import Mathlib

/-
  Verification of the booking subsystem of the movieagent2 repository.

  The development shallowly embeds the functions of src/booking_integration.py
  and the booking handler of src/chatbot.py.  The contents of the CSV file
  Data/Showtimessampledata.csv are modelled as a `Store` value: the header row
  plus a list of `Row` records (one per CSV data row, fields kept as strings,
  all columns other than the six the code touches collected in `extra`).
  Python string primitives are modelled as structural functions on `List Char`
  so that every definition is executable and every concrete instance can be
  settled by `decide` or `rfl`.
-/

namespace Movieagent

/-- Models Python `str.strip()`: drop unicode whitespace from both ends. -/
def pyStripChars (l : List Char) : List Char :=
  ((l.dropWhile Char.isWhitespace).reverse.dropWhile Char.isWhitespace).reverse

/-- Accumulates the value of a run of decimal digits; any non-digit character
    makes the whole parse fail, as in Python `int()`. -/
def decDigitsVal : List Char → Nat → Option Nat
  | [], acc => some acc
  | c :: cs, acc => if c.isDigit then decDigitsVal cs (acc * 10 + (c.toNat - 48)) else none

/-- Digit run after an optional sign, as accepted by Python `int()`. -/
def pyIntOfChars : List Char → Option Int
  | [] => none
  | c :: cs =>
    if c = '-' then
      if cs.isEmpty then none else (decDigitsVal cs 0).map (fun k => -(Int.ofNat k))
    else if c = '+' then
      if cs.isEmpty then none else (decDigitsVal cs 0).map (fun k => Int.ofNat k)
    else (decDigitsVal (c :: cs) 0).map (fun k => Int.ofNat k)

/-- Models Python `int(s)` on a string: optional surrounding whitespace, an
    optional sign, then one or more decimal digits.  (Underscore digit
    separators and non-ASCII digits, which CPython also accepts, are not
    modelled; the repository only ever feeds plain decimal seat counts.) -/
def parseIntOpt (s : String) : Option Int :=
  pyIntOfChars (pyStripChars s.data)

/-- Worker for `pySplitOnSep`; the fuel argument starts at the length of the
    list, which is enough because every step consumes at least one character. -/
def splitOnSepAux (sep : List Char) : Nat → List Char → List Char → List (List Char)
  | _, [], acc => [acc.reverse]
  | 0, rest, acc => [acc.reverse ++ rest]
  | fuel + 1, c :: cs, acc =>
    if sep.isPrefixOf (c :: cs) then
      acc.reverse :: splitOnSepAux sep fuel (List.drop sep.length (c :: cs)) []
    else
      splitOnSepAux sep fuel cs (c :: acc)

/-- Models Python `str.split(sep)` for a non-empty separator: leftmost,
    non-overlapping splitting, keeping empty pieces. -/
def pySplitOnSep (l : List Char) (sep : List Char) : List (List Char) :=
  splitOnSepAux sep l.length l []

/-- Worker for `pySplitWs`. -/
def pySplitWsAux : List Char → List Char → List (List Char)
  | [], acc => if acc.isEmpty then [] else [acc.reverse]
  | c :: cs, acc =>
    if c.isWhitespace then
      if acc.isEmpty then pySplitWsAux cs [] else acc.reverse :: pySplitWsAux cs []
    else pySplitWsAux cs (c :: acc)

/-- Models Python `str.split()` with no argument: split on whitespace runs and
    drop empty pieces. -/
def pySplitWs (l : List Char) : List (List Char) :=
  pySplitWsAux l []

/-- Models Python `str.lower()` (ASCII letters; the data files only use
    ASCII language names). -/
def lowerStr (s : String) : String :=
  String.mk (s.data.map Char.toLower)

/-- One data row of Data/Showtimessampledata.csv, as read by `csv.DictReader`.
    The six fields the booking code reads or writes are explicit; every other
    column of the row is kept verbatim in `extra`. -/
structure Row where
  theater_location : String
  movie_name : String
  date : String
  time : String
  language : String
  available_seats : String
  extra : List (String × String)
deriving DecidableEq

/-- The whole backing CSV file: its header line (`reader.fieldnames`) and its
    data rows in file order. -/
structure Store where
  header : List String
  rows : List Row
deriving DecidableEq

/-- The exact-match test of the loop in `book_tickets`
    (src/booking_integration.py lines 81 to 92): date, time equal, language
    equal case-insensitively, and the optional `movie_name`/`theater_name`
    arguments equal to the fields.  A `none` argument (the Python default
    `None`) compares unequal to every string, exactly as `show[...] == None`
    does in Python. -/
def rowMatches (show_row : Row) (date time language : String)
    (movie_name theater_name : Option String) : Bool :=
  (show_row.date == date) && (show_row.time == time) &&
    (lowerStr show_row.language == lowerStr language) &&
    (some show_row.movie_name == movie_name) &&
    (some show_row.theater_location == theater_name)

/-- The `for show in showtimes ... break` loop of `book_tickets`: the first
    row satisfying `rowMatches`, together with its position in the file. -/
def findMatch : List Row → String → String → String → Option String → Option String →
    Option (Nat × Row)
  | [], _, _, _, _, _ => none
  | r :: rs, date, time, language, movie_name, theater_name =>
    if rowMatches r date time language movie_name theater_name then some (0, r)
    else (findMatch rs date time language movie_name theater_name).map
      (fun p => (p.1 + 1, p.2))

/-- Models the query-string parsing of `book_tickets`: strip, split on
    " - " into at least two parts, split the first part on whitespace into
    exactly a date and a time, take the second part as the language.
    Returns `none` exactly when the code falls through to the
    "Invalid booking data format" return. -/
def queryKey (query_result : String) : Option (String × String × String) :=
  let parts := pySplitOnSep (pyStripChars query_result.data) [' ', '-', ' ']
  if 2 ≤ parts.length then
    let date_time := pySplitWs (parts.getD 0 [])
    if date_time.length = 2 then
      some (String.mk (date_time.getD 0 []), String.mk (date_time.getD 1 []),
        String.mk (parts.getD 1 []))
    else none
  else none

/-- The message produced by the catch-all `except` clause of `book_tickets`. -/
def bookingErrorMsg (e : String) : String := "Booking error: " ++ e

/-- Models `str(e)` for the `FileNotFoundError` raised when the CSV file is
    absent. -/
def fileNotFoundMsg : String :=
  "[Errno 2] No such file or directory: Data/Showtimessampledata.csv"

/-- Models `str(e)` for the `ValueError` raised by `int()` on a non-integer
    seat string. -/
def invalidIntMsg (s : String) : String :=
  "invalid literal for int() with base 10: " ++ s

/-- Models `str(e)` for an `OSError` raised while rewriting the CSV file. -/
def writeErrorMsg : String :=
  "OSError while rewriting Data/Showtimessampledata.csv"

def invalidFormatMsg : String := "Invalid booking data format"

def notFoundMsg : String := "Could not find matching showtime in the database."

def insufficientMsg (available : Int) : String :=
  "Not enough seats available. Only " ++ toString available ++ " seats left."

def successMsg (num_tickets : Int) : String :=
  "Successfully booked " ++ toString num_tickets ++ " ticket(s)"

/-- The body of the `try` block of `book_tickets`, given that the CSV file was
    read successfully into `s`.

    The write-back models the source exactly at the file-system level:
    `open(..., "w")` truncates the file, then the header and the rows are
    written front to back.  `failAt = none` means the rewrite completes;
    `failAt = some k` means an I/O error hits after `k` data rows were
    written, so the file on disk holds the header and only the first `k`
    updated rows, and the exception is converted by the `except` clause into
    a `(False, "Booking error: ...")` result. -/
def book_tickets_run (s : Store) (query_result : String) (num_tickets : Int)
    (movie_name theater_name : Option String) (failAt : Option Nat) :
    (Bool × String) × Store :=
  match queryKey query_result with
  | none => ((false, invalidFormatMsg), s)
  | some (date, time, language) =>
    match findMatch s.rows date time language movie_name theater_name with
    | none => ((false, notFoundMsg), s)
    | some (i, matching_show) =>
      match parseIntOpt matching_show.available_seats with
      | none => ((false, bookingErrorMsg (invalidIntMsg matching_show.available_seats)), s)
      | some available =>
        if num_tickets ≤ available then
          let updated := { matching_show with
            available_seats := toString (available - num_tickets) }
          let newRows := s.rows.set i updated
          match failAt with
          | none => ((true, successMsg num_tickets), { header := s.header, rows := newRows })
          | some k =>
            ((false, bookingErrorMsg writeErrorMsg),
              { header := s.header, rows := newRows.take k })
        else ((false, insufficientMsg available), s)

/-- `book_tickets` of src/booking_integration.py.  `store = none` models a
    missing CSV file: the `open` raises and the `except` clause returns the
    error pair, leaving no file behind.  The returned `Option Store` is the
    state of the backing file after the call. -/
def book_tickets (store : Option Store) (query_result : String) (num_tickets : Int)
    (movie_name theater_name : Option String) (failAt : Option Nat) :
    (Bool × String) × Option Store :=
  match store with
  | none => ((false, bookingErrorMsg fileNotFoundMsg), none)
  | some s =>
    let r := book_tickets_run s query_result num_tickets movie_name theater_name failAt
    (r.1, some r.2)

/-- A seat-count string is acceptable when, if it parses as an integer at all,
    the value is non-negative. -/
def seatOK (s : String) : Bool :=
  match parseIntOpt s with
  | some v => decide (0 ≤ v)
  | none => true

/-- Every row of the store has an acceptable seat count. -/
def allSeatsOK (s : Store) : Bool :=
  s.rows.all (fun r => seatOK r.available_seats)

/-- One booking attempt of a sequence: the arguments of one `book_tickets`
    call. -/
structure Req where
  query_result : String
  num_tickets : Int
  movie_name : Option String
  theater_name : Option String
  failAt : Option Nat
deriving DecidableEq

/-- Runs a sequence of booking attempts against the store, threading the
    backing file through the calls. -/
def runBookings : Store → List Req → Store
  | s, [] => s
  | s, r :: rs =>
    runBookings
      (((book_tickets (some s) r.query_result r.num_tickets r.movie_name
        r.theater_name r.failAt).2).getD s) rs

/-- The read-and-decide phase of `book_tickets`: everything the code does
    before opening the file for writing.  Returns the fully updated row list
    when the booking would proceed, `none` when the call fails before the
    write. -/
def bookDecide (s : Store) (query_result : String) (num_tickets : Int)
    (movie_name theater_name : Option String) : Option (List Row) :=
  match queryKey query_result with
  | none => none
  | some (date, time, language) =>
    match findMatch s.rows date time language movie_name theater_name with
    | none => none
    | some (i, matching_show) =>
      match parseIntOpt matching_show.available_seats with
      | none => none
      | some available =>
        if num_tickets ≤ available then
          some (s.rows.set i { matching_show with
            available_seats := toString (available - num_tickets) })
        else none

/-- Two `book_tickets` calls racing on the same file, in the interleaving
    read A, read B, write A, write B: both decide against the same initial
    file contents (the source has no lock of any kind), then the writes are
    rewrites of the whole file, so the later one replaces the earlier one. -/
def interleavedTwo (s : Store)
    (q1 : String) (n1 : Int) (m1 t1 : Option String)
    (q2 : String) (n2 : Int) (m2 t2 : Option String) :
    (Bool × Bool) × Store :=
  match bookDecide s q1 n1 m1 t1, bookDecide s q2 n2 m2 t2 with
  | some _, some rows2 => ((true, true), { header := s.header, rows := rows2 })
  | some rows1, none => ((true, false), { header := s.header, rows := rows1 })
  | none, some rows2 => ((false, true), { header := s.header, rows := rows2 })
  | none, none => ((false, false), s)

/-- The fields `handle_book_tickets` reads from the structured intent JSON
    (src/chatbot.py): each one is `None` when absent. -/
structure ParsedQuery where
  movie_name : Option String
  cinema_name : Option String
  showtime_str : Option String
  num_tickets : Option Int
  language : Option String
deriving DecidableEq

/-- Python truthiness of an optional string: `None` and the empty string are
    falsy. -/
def pyFalsy : Option String → Bool
  | none => true
  | some s => s.data.isEmpty

/-- Models Python `s.split(' ', 1)`: split at the first space only. -/
def pySplitOnceSpace (s : String) : List String :=
  match pySplitOnSep s.data [' '] with
  | [] => [s]
  | [x] => [String.mk x]
  | x :: rest => [String.mk x, String.mk (List.intercalate [' '] rest)]

/-- Models `str.strip()` on a `String`. -/
def stripStr (s : String) : String := String.mk (pyStripChars s.data)

/-- Models `showtime_str.replace(",", "")`. -/
def removeCommas (s : String) : String :=
  String.mk (s.data.filter (fun c => c != ','))

/-- The date/time extraction of `handle_book_tickets`: if the substring "at"
    occurs, `date, time = showtime_str.split('at')` (which raises unless the
    split has exactly two parts); otherwise `showtime_str.split(' ', 1)`
    (which raises when there is no space).  `none` models the raised
    `ValueError`, caught by the outer `except`. -/
def splitShowtime (s : String) : Option (String × String) :=
  let partsAt := pySplitOnSep s.data ['a', 't']
  if 2 ≤ partsAt.length then
    match partsAt with
    | [a, b] => some (String.mk a, String.mk b)
    | _ => none
  else
    match pySplitOnceSpace s with
    | [a, b] => some (a, b)
    | _ => none

/-- The message of the outer `except` clause of `handle_book_tickets`. -/
def handlerExceptMsg : String :=
  "Please check the available showtimes first and then book using the exact time shown."

/-- `handle_book_tickets` of src/chatbot.py.  The two query-engine calls are
    opaque oracles, so their responses `results` and `specific_results` are
    arguments, as is the random `confirmation` token.  The vector-index query
    strings themselves are built but never inspected by the code, so they are
    not modelled.  Apostrophes in the user-facing texts are written out in
    full.  Returns the reply text and the state of the backing file. -/
def handle_book_tickets (store : Option Store) (parsed : ParsedQuery)
    (results specific_results confirmation : String) (failAt : Option Nat) :
    String × Option Store :=
  let num_tickets : Int := parsed.num_tickets.getD 1
  if pyFalsy parsed.movie_name || pyFalsy parsed.cinema_name then
    let missing := (if pyFalsy parsed.movie_name then ["movie name"] else []) ++
      (if pyFalsy parsed.cinema_name then ["cinema location"] else [])
    let missingTxt := String.intercalate (", ") missing
    ("Missing required information: " ++ missingTxt, store)
  else
    let movie := parsed.movie_name.getD ("")
    let cinema := parsed.cinema_name.getD ("")
    if 1 < results.data.count '\n' && pyFalsy parsed.showtime_str then
      ("Multiple showtimes available for " ++ movie ++ " at " ++ cinema ++
        ". Please specify which showtime you would like to book:\n" ++ results, store)
    else if !pyFalsy parsed.showtime_str then
      match splitShowtime (removeCommas (parsed.showtime_str.getD (""))) with
      | none => (handlerExceptMsg, store)
      | some (d0, t0) =>
        let date := stripStr d0
        let time := stripStr t0
        if !(stripStr specific_results).data.isEmpty then
          let booked := book_tickets store specific_results num_tickets none none failAt
          if booked.1.1 then
            ("✅ Successfully booked " ++ toString num_tickets ++ " ticket(s) for " ++
              movie ++ " at " ++ cinema ++ " for " ++ date ++ " at " ++ time ++
              "\n\n🎟️ Confirmation Number: " ++ confirmation ++
              "\nPlease show this confirmation number at the theatre.\n\n🍿 Enjoy your show!",
              booked.2)
          else
            ("Booking failed: " ++ booked.1.2, booked.2)
        else
          ("Could not find that exact showtime. Please check the available showtimes and try again.",
            store)
    else
      ("Please specify which showtime you would like to book.", store)

/-- A plausible header for the sample CSV (its exact contents never matter:
    the code only copies `reader.fieldnames` back unchanged). -/
def sampleHeader : List String :=
  ["theater_location", "address", "city", "state", "movie_name", "genre",
    "language", "date", "time", "available_seats"]

/-- A concrete showtime row used by the witnesses. -/
def duneRow : Row :=
  { theater_location := "PVR", movie_name := "Dune", date := "2024-12-15",
    time := "17:30", language := "English", available_seats := "2",
    extra := [("city", "Bangalore")] }

def qEnglish : String := "2024-12-15 17:30 - English"

/-- A query result that parses but matches no stored row (wrong time). -/
def qNoMatch : String := "2024-12-15 21:00 - English"

def duneName : Option String := some ("Dune")

def pvrName : Option String := some ("PVR")

/-- A store holding exactly the one sample row. -/
def showStore : Store := { header := sampleHeader, rows := [duneRow] }

/-- The sample row after the race of two two-ticket bookings. -/
def duneRow0 : Row := { duneRow with available_seats := "0" }

def showStore0 : Store := { header := sampleHeader, rows := [duneRow0] }

/-- A second row with the same natural key as `duneRow` (the store enforces
    no uniqueness), making the key ambiguous. -/
def duneRowDup : Row := { duneRow with available_seats := "5" }

def ambStore : Store := { header := sampleHeader, rows := [duneRow, duneRowDup] }

/-- A row matching the sample key on movie, theater, date and time but stored
    in another language. -/
def hindiRow : Row := { duneRow with language := "hindi", available_seats := "3" }

def hindiStore : Store := { header := sampleHeader, rows := [hindiRow] }

/-- A sample booking request for the sequence witness. -/
def reqA : Req :=
  { query_result := qEnglish, num_tickets := 1, movie_name := duneName,
    theater_name := pvrName, failAt := none }

/-- The same request asking for more tickets than remain. -/
def reqB : Req := { reqA with num_tickets := 5 }

theorem digitChar_isDigit : ∀ m, m < 10 → (Nat.digitChar m).isDigit = true := by decide

theorem toDigitsCore_digits (fuel : Nat) :
    ∀ (n : Nat) (acc : List Char), (∀ c ∈ acc, c.isDigit = true) →
      ∀ c ∈ Nat.toDigitsCore 10 fuel n acc, c.isDigit = true := by
  induction fuel with
  | zero =>
    intro n acc hacc c hc
    exact hacc c (by simpa [Nat.toDigitsCore] using hc)
  | succ fuel ih =>
    intro n acc hacc c hc
    have hdig : (Nat.digitChar (n % 10)).isDigit = true :=
      digitChar_isDigit (n % 10) (Nat.mod_lt n (by norm_num))
    by_cases h10 : n / 10 = 0
    · simp only [Nat.toDigitsCore, h10, if_true] at hc
      rcases List.mem_cons.mp hc with h | h
      · exact h ▸ hdig
      · exact hacc c h
    · simp only [Nat.toDigitsCore, h10, if_false] at hc
      refine ih (n / 10) (Nat.digitChar (n % 10) :: acc) ?_ c hc
      intro c2 hc2
      rcases List.mem_cons.mp hc2 with h | h
      · exact h ▸ hdig
      · exact hacc c2 h

theorem repr_data_digits (n : Nat) : ∀ c ∈ (Nat.repr n).data, c.isDigit = true := by
  intro c hc
  have h : (Nat.repr n).data = Nat.toDigitsCore 10 (n + 1) n [] := rfl
  exact toDigitsCore_digits (n + 1) n [] (by simp) c (h ▸ hc)

theorem toString_int_data_digits (v : Int) (hv : 0 ≤ v) :
    ∀ c ∈ (toString v).data, c.isDigit = true := by
  obtain ⟨m, rfl⟩ := Int.eq_ofNat_of_zero_le hv
  intro c hc
  have hc2 : c ∈ (Nat.repr m).data := hc
  exact repr_data_digits m c hc2

theorem mem_of_mem_dropWhile {p : Char → Bool} {l : List Char} {c : Char}
    (h : c ∈ l.dropWhile p) : c ∈ l :=
  (List.dropWhile_sublist p).subset h

theorem mem_of_mem_pyStripChars {l : List Char} {c : Char}
    (h : c ∈ pyStripChars l) : c ∈ l := by
  unfold pyStripChars at h
  rw [List.mem_reverse] at h
  have h1 := mem_of_mem_dropWhile h
  rw [List.mem_reverse] at h1
  exact mem_of_mem_dropWhile h1

theorem parseIntOpt_nonneg {s : String} (hd : ∀ c ∈ s.data, c.isDigit = true) :
    ∀ w, parseIntOpt s = some w → 0 ≤ w := by
  intro w hw
  unfold parseIntOpt at hw
  cases hstrip : pyStripChars s.data with
  | nil => rw [hstrip] at hw; exact absurd hw (by simp [pyIntOfChars])
  | cons c cs =>
    rw [hstrip] at hw
    simp only [pyIntOfChars] at hw
    have hcdig : c.isDigit = true :=
      hd c (mem_of_mem_pyStripChars (hstrip ▸ List.mem_cons_self c cs))
    have hminus : ¬ c = '-' := by
      intro h; rw [h] at hcdig; exact absurd hcdig (by decide)
    rw [if_neg hminus] at hw
    have hplus' : (c = '+') ∨ ¬ (c = '+') := em _
    rcases hplus' with hplus | hplus
    · rw [if_pos hplus] at hw
      cases hcs : cs.isEmpty with
      | true => rw [hcs] at hw; exact absurd hw (by simp)
      | false =>
        rw [hcs] at hw
        simp only [if_false, Bool.false_eq_true, reduceIte] at hw
        rcases Option.map_eq_some'.mp hw with ⟨k, _, hk⟩
        rw [← hk]
        exact Int.ofNat_nonneg k
    · rw [if_neg hplus] at hw
      rcases Option.map_eq_some'.mp hw with ⟨k, _, hk⟩
      rw [← hk]
      exact Int.ofNat_nonneg k

theorem seatOK_toString {v : Int} (hv : 0 ≤ v) : seatOK (toString v) = true := by
  unfold seatOK
  cases hp : parseIntOpt (toString v) with
  | none => rfl
  | some w =>
    exact decide_eq_true (parseIntOpt_nonneg (toString_int_data_digits v hv) w hp)

theorem findMatch_spec :
    ∀ (rows : List Row) (d ti lang : String) (m t : Option String) (i : Nat) (row : Row),
      findMatch rows d ti lang m t = some (i, row) →
      i < rows.length ∧ rows[i]? = some row ∧ rowMatches row d ti lang m t = true ∧
        ∀ j r2, j < i → rows[j]? = some r2 → rowMatches r2 d ti lang m t = false := by
  intro rows
  induction rows with
  | nil => intro d ti lang m t i row h; exact absurd h (by simp [findMatch])
  | cons r rs ih =>
    intro d ti lang m t i row h
    by_cases hr : rowMatches r d ti lang m t = true
    · rw [findMatch, if_pos hr] at h
      have hi : i = 0 ∧ row = r := by
        have := (Option.some_inj.mp h)
        exact ⟨(Prod.mk.injEq .. ▸ this).1.symm, ((Prod.mk.injEq .. ▸ this).2).symm⟩
      obtain ⟨hi0, hrow⟩ := hi
      subst hi0; subst hrow
      refine ⟨Nat.succ_pos rs.length, by simp, hr, ?_⟩
      intro j r2 hj _
      exact absurd hj (Nat.not_lt_zero j)
    · rw [findMatch, if_neg hr] at h
      rcases Option.map_eq_some'.mp h with ⟨⟨i0, row0⟩, hfm, heq⟩
      have hieq : i0 + 1 = i ∧ row0 = row := by
        have h1 := congrArg Prod.fst heq
        have h2 := congrArg Prod.snd heq
        exact ⟨h1, h2⟩
      obtain ⟨hi0, hrow0⟩ := hieq
      subst hi0; subst hrow0
      obtain ⟨hlt, hget, hmat, hfirst⟩ := ih d ti lang m t i0 row0 hfm
      refine ⟨Nat.succ_lt_succ hlt, by simpa using hget, hmat, ?_⟩
      intro j r2 hj hget2
      cases j with
      | zero =>
        have : r2 = r := by simpa using hget2.symm
        rw [this]
        exact Bool.eq_false_iff.mpr hr
      | succ j0 =>
        exact hfirst j0 r2 (Nat.lt_of_succ_lt_succ hj) (by simpa using hget2)

theorem allSeatsOK_book_tickets_run (s : Store) (q : String) (n : Int)
    (m t : Option String) (f : Option Nat) (h : allSeatsOK s = true) :
    allSeatsOK (book_tickets_run s q n m t f).2 = true := by
  have hall : s.rows.all (fun r => seatOK r.available_seats) = true := h
  unfold book_tickets_run
  split
  · simpa using h
  · split
    · simpa using h
    · split
      · simpa using h
      · rename_i x1 d ti lang heq1 x2 i row heq2 x3 available heq3
        split
        · rename_i hle
          have hrows : ∀ r2 ∈ s.rows.set i
              { row with available_seats := toString (available - n) },
              seatOK r2.available_seats = true := by
            intro r2 hr2
            rcases List.mem_or_eq_of_mem_set hr2 with h2 | h2
            · exact List.all_eq_true.mp hall r2 h2
            · rw [h2]
              exact seatOK_toString (by omega)
          cases f with
          | none => exact List.all_eq_true.mpr hrows
          | some k =>
            exact List.all_eq_true.mpr (fun r2 hr2 => hrows r2 (List.take_subset k _ hr2))
        · simpa using h

theorem book_tickets_run_eq_decide (s : Store) (q : String) (n : Int)
    (m t : Option String) :
    book_tickets_run s q n m t none =
      match bookDecide s q n m t with
      | some rows2 => ((true, successMsg n), { header := s.header, rows := rows2 })
      | none => ((book_tickets_run s q n m t none).1, s) := by
  unfold book_tickets_run bookDecide
  split
  · rfl
  · split
    · rfl
    · split
      · rfl
      · split
        · rfl
        · rfl

/-- C1: for every store and every sequence of booking attempts with positive
    requested ticket counts, no stored seat count ever becomes negative:
    `book_tickets` decrements only when `available >= num_tickets`, so a store
    whose seat counts are all non-negative keeps that property through any
    sequence of calls (including calls that fail, calls on malformed input,
    and calls whose write-back is cut short). -/
theorem seats_never_negative (s : Store) (reqs : List Req)
    (hpos : ∀ r ∈ reqs, 0 < r.num_tickets) (h0 : allSeatsOK s = true) :
    allSeatsOK (runBookings s reqs) = true := by
  induction reqs generalizing s with
  | nil => simpa [runBookings] using h0
  | cons r rs ih =>
    rw [runBookings]
    apply ih
    · intro x hx
      exact hpos x (List.mem_cons_of_mem r hx)
    · exact allSeatsOK_book_tickets_run s r.query_result r.num_tickets r.movie_name
        r.theater_name r.failAt h0

/-- Witness for C1: a concrete three-request sequence (book one ticket, fail
    to book five, book one more) against the sample store. -/
theorem seats_never_negative_witness :
    allSeatsOK (runBookings showStore [reqA, reqB, reqA]) = true :=
  seats_never_negative showStore [reqA, reqB, reqA] (by decide) (by decide)

/-- C2: a booking request for more tickets than the matched row has left
    returns failure with the message carrying the remaining seat count, and
    the backing file is returned unchanged (no write happens). -/
theorem insufficient_seats_fails_unchanged (s : Store) (q : String) (n : Int)
    (m t : Option String) (f : Option Nat) (d ti lang : String) (i : Nat) (row : Row)
    (available : Int)
    (hq : queryKey q = some (d, ti, lang))
    (hm : findMatch s.rows d ti lang m t = some (i, row))
    (hp : parseIntOpt row.available_seats = some available)
    (hlt : available < n) :
    book_tickets (some s) q n m t f = ((false, insufficientMsg available), some s) := by
  have hnle : ¬ n ≤ available := not_le.mpr hlt
  simp only [book_tickets, book_tickets_run, hq, hm, hp, if_neg hnle]

/-- Witness for C2: requesting five tickets when two remain. -/
theorem insufficient_seats_fails_unchanged_witness :
    book_tickets (some showStore) qEnglish 5 duneName pvrName none
      = ((false, insufficientMsg 2), some showStore) :=
  insufficient_seats_fails_unchanged showStore qEnglish 5 duneName pvrName none
    ("2024-12-15") ("17:30") ("English") 0 duneRow 2
    (by decide) (by decide) (by decide) (by decide)

/-- C3: when the parsed key matches no row of the store, `book_tickets`
    returns the not-found failure and the backing file contents are identical
    before and after the call. -/
theorem not_found_no_write (s : Store) (q : String) (n : Int)
    (m t : Option String) (f : Option Nat) (d ti lang : String)
    (hq : queryKey q = some (d, ti, lang))
    (hnone : findMatch s.rows d ti lang m t = none) :
    book_tickets (some s) q n m t f = ((false, notFoundMsg), some s) := by
  simp only [book_tickets, book_tickets_run, hq, hnone]

/-- Witness for C3: a well-formed query for a time not in the store. -/
theorem not_found_no_write_witness :
    book_tickets (some showStore) qNoMatch 2 duneName pvrName none
      = ((false, notFoundMsg), some showStore) :=
  not_found_no_write showStore qNoMatch 2 duneName pvrName none
    ("2024-12-15") ("21:00") ("English") (by decide) (by decide)

/-- C4 (evidence of the defect): the write-back is not all-or-nothing.  The
    code truncates the CSV file and rewrites it front to back, so an I/O
    error during the rewrite leaves a partial file: failing before any row is
    written leaves an empty table (the prior seat count 2 is gone), and
    failing right after the updated row is written persists the decrement
    even though the call reports failure. -/
theorem persistence_failure_partial_write :
    book_tickets (some showStore) qEnglish 1 duneName pvrName (some 0)
      = ((false, bookingErrorMsg writeErrorMsg),
         some { header := sampleHeader, rows := [] }) ∧
    ({ header := sampleHeader, rows := ([] : List Row) } : Store) ≠ showStore ∧
    book_tickets (some showStore) qEnglish 1 duneName pvrName (some 1)
      = ((false, bookingErrorMsg writeErrorMsg),
         some { header := sampleHeader, rows := [{ duneRow with available_seats := "1" }] }) ∧
    ({ duneRow with available_seats := "1" } : Row) ≠ duneRow := by
  decide

/-- C5 counterexample: with two stored rows carrying the same natural key,
    `book_tickets` does not fail with an ambiguity result: it books the first
    of the two candidates and decrements its seat count. -/
theorem ambiguous_key_booked_cex :
    2 ≤ ambStore.rows.countP
        (fun r => rowMatches r ("2024-12-15") ("17:30") ("English") duneName pvrName) ∧
    book_tickets (some ambStore) qEnglish 1 duneName pvrName none
      = ((true, successMsg 1),
         some { header := sampleHeader,
                rows := [{ duneRow with available_seats := "1" }, duneRowDup] }) := by
  decide

/-- C5 amended: when several rows match the key, `book_tickets` silently
    books the first matching row in file order (every earlier row does not
    match) and decrements only that row. -/
theorem books_first_matching_candidate (s : Store) (q : String) (n : Int)
    (m t : Option String) (d ti lang : String) (i : Nat) (row : Row) (available : Int)
    (hq : queryKey q = some (d, ti, lang))
    (hm : findMatch s.rows d ti lang m t = some (i, row))
    (hp : parseIntOpt row.available_seats = some available)
    (hle : n ≤ available) :
    (∀ j r2, j < i → s.rows[j]? = some r2 → rowMatches r2 d ti lang m t = false) ∧
    book_tickets (some s) q n m t none
      = ((true, successMsg n),
         some { header := s.header,
                rows := s.rows.set i
                  { row with available_seats := toString (available - n) } }) := by
  refine ⟨(findMatch_spec s.rows d ti lang m t i row hm).2.2.2, ?_⟩
  simp only [book_tickets, book_tickets_run, hq, hm, hp, if_pos hle]

/-- Witness for the amended C5, at the ambiguous store. -/
theorem books_first_matching_candidate_witness :
    (∀ j r2, j < 0 → ambStore.rows[j]? = some r2 →
      rowMatches r2 ("2024-12-15") ("17:30") ("English") duneName pvrName = false) ∧
    book_tickets (some ambStore) qEnglish 1 duneName pvrName none
      = ((true, successMsg 1),
         some { header := ambStore.header,
                rows := ambStore.rows.set 0
                  { duneRow with available_seats := toString ((2 : Int) - 1) } }) :=
  books_first_matching_candidate ambStore qEnglish 1 duneName pvrName
    ("2024-12-15") ("17:30") ("English") 0 duneRow 2
    (by decide) (by decide) (by decide) (by decide)

/-- C6 counterexample: a request whose query result carries no language
    segment is not treated as a wildcard: even though the store holds a row
    matching on movie, theater, date and time, the call fails with the
    invalid-format message and books nothing. -/
theorem language_wildcard_cex :
    hindiRow.movie_name = "Dune" ∧ hindiRow.theater_location = "PVR" ∧
    hindiRow.date = "2024-12-15" ∧ hindiRow.time = "17:30" ∧
    book_tickets (some hindiStore) ("2024-12-15 17:30") 1 duneName pvrName none
      = ((false, invalidFormatMsg), some hindiStore) := by
  decide

/-- C6 amended: `book_tickets` never wildcards the language: a query result
    without a language segment fails with the invalid-format message and no
    write, and a row is matched only when its language equals the query
    language case-insensitively. -/
theorem language_required_and_exact (s : Store) (q : String) (n : Int)
    (m t : Option String) (f : Option Nat) (d ti lang : String) (i : Nat) (row : Row) :
    (queryKey q = none →
      book_tickets (some s) q n m t f = ((false, invalidFormatMsg), some s)) ∧
    (queryKey q = some (d, ti, lang) → findMatch s.rows d ti lang m t = some (i, row) →
      lowerStr row.language = lowerStr lang) := by
  constructor
  · intro hq
    simp only [book_tickets, book_tickets_run, hq]
  · intro hq hm
    have hmatch := (findMatch_spec s.rows d ti lang m t i row hm).2.2.1
    unfold rowMatches at hmatch
    simp only [Bool.and_eq_true, beq_iff_eq] at hmatch
    exact hmatch.1.1.2

/-- Witness for the amended C6: the stored language hindi matches the query
    language HINDI case-insensitively. -/
theorem language_required_and_exact_witness :
    lowerStr hindiRow.language = lowerStr ("HINDI") :=
  (language_required_and_exact hindiStore ("2024-12-15 17:30 - HINDI") 1 duneName pvrName
    none ("2024-12-15") ("17:30") ("HINDI") 0 hindiRow).2 (by decide) (by decide)

/-- C7 (evidence of the defect): the check-then-act of `book_tickets` is not
    serialized.  Two concurrent two-ticket bookings against the two-seat
    sample row, interleaved read-read-write-write, both report success, and
    the surviving file shows zero seats: four tickets were issued for two
    seats.  Processed serially, the code itself makes the second request fail
    with the insufficient-seats message. -/
theorem race_both_bookings_succeed :
    interleavedTwo showStore qEnglish 2 duneName pvrName qEnglish 2 duneName pvrName
      = ((true, true), showStore0) ∧
    book_tickets (some showStore) qEnglish 2 duneName pvrName none
      = ((true, successMsg 2), some showStore0) ∧
    book_tickets (some showStore0) qEnglish 2 duneName pvrName none
      = ((false, insufficientMsg 0), some showStore0) := by
  decide

/-- C8: when the parsed intent carries no `num_tickets` field, the handler
    behaves exactly as if the user had requested one ticket. -/
theorem num_tickets_defaults_to_one (store : Option Store) (parsed : ParsedQuery)
    (results specific_results confirmation : String) (failAt : Option Nat) :
    handle_book_tickets store { parsed with num_tickets := none } results
        specific_results confirmation failAt
      = handle_book_tickets store { parsed with num_tickets := some 1 } results
        specific_results confirmation failAt := rfl

/-- C9: `book_tickets` is total (it is a function into result pairs) and the
    internal failure modes named by the claim are all converted into a
    `(false, message)` result with the backing file untouched: a missing CSV
    file, a malformed query result string, and a non-integer seat value on
    the matched row. -/
theorem book_tickets_total_failures (s : Store) (q : String) (n : Int)
    (m t : Option String) (f : Option Nat) :
    book_tickets none q n m t f = ((false, bookingErrorMsg fileNotFoundMsg), none) ∧
    (queryKey q = none →
      book_tickets (some s) q n m t f = ((false, invalidFormatMsg), some s)) ∧
    (∀ d ti lang i row, queryKey q = some (d, ti, lang) →
      findMatch s.rows d ti lang m t = some (i, row) →
      parseIntOpt row.available_seats = none →
      book_tickets (some s) q n m t f
        = ((false, bookingErrorMsg (invalidIntMsg row.available_seats)), some s)) := by
  refine ⟨rfl, ?_, ?_⟩
  · intro hq
    simp only [book_tickets, book_tickets_run, hq]
  · intro d ti lang i row hq hm hp
    simp only [book_tickets, book_tickets_run, hq, hm, hp]

/-- Witness for C9: a malformed query result string yields the invalid-format
    failure with the store unchanged. -/
theorem book_tickets_total_failures_witness :
    book_tickets (some showStore) ("garbage") 1 none none none
      = ((false, invalidFormatMsg), some showStore) :=
  (book_tickets_total_failures showStore ("garbage") 1 none none none).2.1 (by decide)

/-- C10: a successful booking rewrites the store so that only the matched
    row changes, and within it only the `available_seats` field (the record
    update keeps every other field): the header, the row count, and every
    other row are preserved at their positions. -/
theorem success_frame_effect (s : Store) (q : String) (n : Int) (m t : Option String)
    (f : Option Nat)
    (hs : (book_tickets (some s) q n m t f).1.1 = true) :
    ∃ (i : Nat) (row : Row) (available : Int) (s2 : Store),
      s.rows[i]? = some row ∧
      parseIntOpt row.available_seats = some available ∧
      n ≤ available ∧
      (book_tickets (some s) q n m t f).2 = some s2 ∧
      s2.header = s.header ∧
      s2.rows.length = s.rows.length ∧
      s2.rows[i]? = some { row with available_seats := toString (available - n) } ∧
      ∀ j, j ≠ i → s2.rows[j]? = s.rows[j]? := by
  have hs2 : (book_tickets_run s q n m t f).1.1 = true := hs
  have hpost : (book_tickets (some s) q n m t f).2
      = some (book_tickets_run s q n m t f).2 := rfl
  rw [hpost]
  clear hs hpost
  unfold book_tickets_run at hs2 ⊢
  split at hs2
  · exact absurd hs2 (by simp)
  · split at hs2
    · exact absurd hs2 (by simp)
    · split at hs2
      · exact absurd hs2 (by simp)
      · rename_i x1 d ti lang hq x2 i row hm x3 available hp
        split at hs2
        · rename_i hle
          cases f with
          | some k => exact absurd hs2 (by simp)
          | none =>
            obtain ⟨hlt, hget, hmat, hfirst⟩ := findMatch_spec s.rows d ti lang m t i row hm
            refine ⟨i, row, available,
              { header := s.header,
                rows := s.rows.set i
                  { row with available_seats := toString (available - n) } },
              hget, hp, hle, ?_, rfl, ?_, ?_, ?_⟩
            · simp only [hq, hm, hp, if_pos hle]
            · simp [List.length_set]
            · simp [List.getElem?_set_self, hlt]
            · intro j hj
              exact List.getElem?_set_ne (Ne.symm hj)
        · exact absurd hs2 (by simp)

/-- Witness for C10: the successful one-ticket booking at the sample store. -/
theorem success_frame_effect_witness :
    ∃ (i : Nat) (row : Row) (available : Int) (s2 : Store),
      showStore.rows[i]? = some row ∧
      parseIntOpt row.available_seats = some available ∧
      (1 : Int) ≤ available ∧
      (book_tickets (some showStore) qEnglish 1 duneName pvrName none).2 = some s2 ∧
      s2.header = showStore.header ∧
      s2.rows.length = showStore.rows.length ∧
      s2.rows[i]? = some { row with available_seats := toString (available - 1) } ∧
      ∀ j, j ≠ i → s2.rows[j]? = showStore.rows[j]? :=
  success_frame_effect showStore qEnglish 1 duneName pvrName none (by decide)

end Movieagent
